import Mathlib

/-!
Shallow embedding of `src/csv_writer.py` (class `CSVWriter`) from the
hazards_sumo repository, together with theorems about its observable
behaviour.

Modelling choices:
* The filesystem is a record holding the existence of the output directory
  `output_data` and the contents of the two destination files
  `output_data/simulation_data.csv` and `output_data/hazard_events.csv`.
  A file's content is a list of CSV rows (a row is a list of cell strings);
  `none` means the file does not exist.
* I/O faults are injected through a `Faults` record with one flag per I/O
  point (`os.makedirs`, opening the data file, opening the hazard file);
  a raised-and-caught exception corresponds to the flag being set, or to
  opening a file while the directory is absent (Python raises
  `FileNotFoundError` there).
* Python floats are modelled as rationals; the `f"{v:.2f}"` rendering is
  modelled by rounding `v * 100` to the nearest integer and printing the
  quotient and the two-digit remainder.  The claims depend only on the
  digit count, not on the tie-breaking direction of the rounding.
-/

/-- The `simulation` section of the configuration dictionary: only the key
`csv_append_mode` is read by the writer, and it may be absent. -/
structure Config where
  csv_append_mode : Option Bool
deriving DecidableEq

/-- A CSV row: one cell string per column. -/
abbrev Row := List String

/-- Filesystem state visible to the writer: the output directory and the two
destination files.  `none` content means the file does not exist. -/
structure FS where
  dirExists : Bool
  dataFile : Option (List Row)
  hazardFile : Option (List Row)
deriving DecidableEq

/-- Fault injection: one flag per I/O primitive used by the writer.  A set
flag makes that primitive raise an exception. -/
structure Faults where
  makedirsFails : Bool
  openDataFails : Bool
  openHazardFails : Bool
deriving DecidableEq

/-- The fault assignment where every I/O primitive succeeds. -/
def noFaults : Faults := ⟨false, false, false⟩

/-- The mutable attributes of a `CSVWriter` object (`self.append_mode`,
`self.write_header_data`, `self.write_header_hazard`). -/
structure CSVWriter where
  append_mode : Bool
  write_header_data : Bool
  write_header_hazard : Bool
deriving DecidableEq

/-- The attribute assignments of `CSVWriter.__init__`:
`self.append_mode = config["simulation"].get("csv_append_mode", True)`,
`self.write_header_data = True`, `self.write_header_hazard = True`. -/
def CSVWriter.ofConfig (cfg : Config) : CSVWriter :=
  ⟨cfg.csv_append_mode.getD true, true, true⟩

/-- The directory-creation step of `__init__`:
`if not os.path.exists(self.output_dir): os.makedirs(self.output_dir)`. -/
def mkOutputDir (fs : FS) : FS :=
  if fs.dirExists then fs else { fs with dirExists := true }

/-- `CSVWriter.__init__` as a whole.  It contains no `try`/`except`, so a
failure of `os.makedirs` (only attempted when the directory is absent)
propagates to the caller as an exception, modelled by `Except.error`. -/
def CSVWriter.construct (cfg : Config) (fs : FS) (fl : Faults) :
    Except String (CSVWriter × FS) :=
  if !fs.dirExists && fl.makedirsFails then
    Except.error "OSError in os.makedirs"
  else
    Except.ok (CSVWriter.ofConfig cfg, mkOutputDir fs)

/-- The header row written to `simulation_data.csv`. -/
def dataHeader : Row :=
  ["timestamp", "step", "vehicle_id", "type",
   "x", "y", "speed", "acceleration", "angle", "lane_id", "hazard_active"]

/-- The header row written to `hazard_events.csv`. -/
def hazardHeader : Row :=
  ["timestamp", "hazard_name", "metadata"]

/-- The second half of `initialize_files`: the hazard-file block of the
`try` body.  Opening with mode `'w'` truncates the file and writes the
header; opening fails (raising, caught by the surrounding `except`) when
the directory is absent or the injected fault fires. -/
def initHazardPart (w : CSVWriter) (fs : FS) (fl : Faults) :
    CSVWriter × Bool × FS :=
  if !w.append_mode || w.write_header_hazard then
    if fl.openHazardFails || !fs.dirExists then (w, false, fs)
    else (w, true, { fs with hazardFile := some [hazardHeader] })
  else (w, true, fs)

/-- `CSVWriter.initialize_files`.  First the existence checks set the
`write_header_*` flags; then each destination for which
`not self.append_mode or self.write_header_*` holds is opened with mode
`'w'` (truncating) and given its header row.  Any exception in the `try`
body is caught, printed, and turned into the return value `False`; file
writes performed before the failing point persist. -/
def initFiles (w : CSVWriter) (fs : FS) (fl : Faults) :
    CSVWriter × Bool × FS :=
  let w := if w.append_mode && fs.dataFile.isSome then
    { w with write_header_data := false } else w
  let w := if w.append_mode && fs.hazardFile.isSome then
    { w with write_header_hazard := false } else w
  if !w.append_mode || w.write_header_data then
    if fl.openDataFails || !fs.dirExists then (w, false, fs)
    else initHazardPart w { fs with dataFile := some [dataHeader] } fl
  else initHazardPart w fs fl

/-- The character for the decimal digit `d` (`d < 10` in every use). -/
def digitChar (d : Nat) : Char := Char.ofNat (48 + d)

/-- Decimal digits of `n`, most significant first; `fuel` bounds the
recursion depth (any `fuel > ` number of digits of `n` is exact, and
`natStr` passes `n + 1`). -/
def natChars : Nat → Nat → List Char
  | 0, _ => []
  | fuel + 1, n =>
    if n < 10 then [digitChar n]
    else natChars fuel (n / 10) ++ [digitChar (n % 10)]

/-- Python's decimal rendering of a natural number. -/
def natStr (n : Nat) : String := String.mk (natChars (n + 1) n)

/-- Python's `str` of an integer. -/
def intStr (i : Int) : String :=
  if i < 0 then "-" ++ natStr i.natAbs else natStr i.natAbs

/-- Python's `str` of a boolean (`"True"` / `"False"`). -/
def pyBoolStr (b : Bool) : String := if b then "True" else "False"

/-- The `f"{v:.2f}"` rendering used by `write_data`: sign, integer part,
a point, and exactly two fractional digits, after rounding `|v| * 100` to
the nearest integer (computed on the numerator and denominator:
`(2 * |num| * 100 + den) / (2 * den)` is `⌊|v| * 100 + 1/2⌋`). -/
def format2 (q : ℚ) : String :=
  let m : Nat := (2 * (q.num.natAbs * 100) + q.den) / (2 * q.den)
  String.mk ((if q.num < 0 then ['-'] else []) ++
    natChars (m / 100 + 1) (m / 100) ++
    ['.', digitChar (m / 10 % 10), digitChar (m % 10)])

/-- One element of the `sensor_data` list passed to `write_data`: a Python
dict whose fields are all read with `.get` and a default, hence optional. -/
structure SensorData where
  id : Option String
  type : Option String
  x : Option ℚ
  y : Option ℚ
  speed : Option ℚ
  acceleration : Option ℚ
  angle : Option ℚ
  lane : Option String
  hazard_active : Option Bool
deriving DecidableEq

/-- The sensor-data dict with every field absent. -/
def emptySensorData : SensorData :=
  ⟨none, none, none, none, none, none, none, none, none⟩

/-- The `simulation_state` dict passed to `write_data`: both keys read
with `.get(_, 0)`. -/
structure SimState where
  simulation_time : Option Int
  step : Option Int
deriving DecidableEq

/-- The row built for one sensor-data dict inside `write_data`'s loop. -/
def sampleRow (ts stp : Int) (d : SensorData) : Row :=
  [intStr ts, intStr stp, d.id.getD "", d.type.getD "",
   format2 (d.x.getD 0), format2 (d.y.getD 0), format2 (d.speed.getD 0),
   format2 (d.acceleration.getD 0), format2 (d.angle.getD 0),
   d.lane.getD "", pyBoolStr (d.hazard_active.getD false)]

/-- `CSVWriter.write_data`: returns immediately on an empty batch; else
opens the data file with mode `'a'` (creating it when absent, appending
otherwise) and writes one row per record, all sharing the timestamp and
step read from `simulation_state`.  An exception (fault, or absent
directory) is caught and printed: the call is then a silent no-op. -/
def write_data (fs : FS) (fl : Faults) (sensor_data : List SensorData)
    (simulation_state : SimState) : FS :=
  if sensor_data.isEmpty then fs
  else if fl.openDataFails || !fs.dirExists then fs
  else
    let ts := simulation_state.simulation_time.getD 0
    let stp := simulation_state.step.getD 0
    { fs with
      dataFile := some (fs.dataFile.getD [] ++
        sensor_data.map (sampleRow ts stp)) }

/-- The `hazard_event` dict passed to `write_hazard_event`: all three keys
read with `.get` and a default.  Metadata is modelled as a string-to-string
association list. -/
structure HazardEvent where
  timestamp : Option Int
  hazard_name : Option String
  metadata : Option (List (String × String))
deriving DecidableEq

/-- Python's `str` of a string-keyed dict:
`\x7b'k1': 'v1', 'k2': 'v2'\x7d`, and `\x7b\x7d` when empty. -/
def pyStrDict (m : List (String × String)) : String :=
  "\x7b" ++ String.intercalate ", "
    (m.map (fun kv => "\x27" ++ kv.1 ++ "\x27: \x27" ++ kv.2 ++ "\x27"))
  ++ "\x7d"

/-- The single row built inside `write_hazard_event`. -/
def hazardRow (ev : HazardEvent) : Row :=
  [intStr (ev.timestamp.getD 0), ev.hazard_name.getD "unknown",
   pyStrDict (ev.metadata.getD [])]

/-- `CSVWriter.write_hazard_event`: opens the hazard file with mode `'a'`
and appends one row.  An exception is caught and printed: silent no-op. -/
def write_hazard_event (fs : FS) (fl : Faults) (ev : HazardEvent) : FS :=
  if fl.openHazardFails || !fs.dirExists then fs
  else { fs with hazardFile := some (fs.hazardFile.getD [] ++ [hazardRow ev]) }

/-- Whether Python's `csv` module (default dialect, QUOTE_MINIMAL) must
quote a cell. -/
def cellNeedsQuote (s : String) : Bool :=
  s.data.any (fun c => c = ',' || c = '\"' || c = '\r' || c = '\n')

/-- A cell as serialized by Python's `csv.writer`: quoted with doubled
quote characters when needed, verbatim otherwise. -/
def csvCell (s : String) : String :=
  if cellNeedsQuote s then
    "\"" ++ String.mk (s.data.flatMap
      (fun c => if c = '\"' then ['\"', '\"'] else [c])) ++ "\""
  else s

/-- The text of one CSV line (the `\r\n` line terminator aside). -/
def serializeRow (r : Row) : String :=
  String.intercalate "," (r.map csvCell)

/-- `s` contains a decimal point and exactly two characters follow the
last one. -/
def twoDecimals (s : String) : Prop :=
  ('.' ∈ s.data) ∧ (s.data.reverse.takeWhile (fun c => c != '.')).length = 2

/-! ### Helper lemmas -/

theorem digitChar_bne_dot (d : Nat) (h : d < 10) : (digitChar d != '.') = true := by
  interval_cases d <;> decide

theorem twoDecimals_format2 (q : ℚ) : twoDecimals (format2 q) := by
  have h1 : (2 * (q.num.natAbs * 100) + q.den) / (2 * q.den) / 10 % 10 < 10 :=
    Nat.mod_lt _ (by norm_num)
  have h2 : (2 * (q.num.natAbs * 100) + q.den) / (2 * q.den) % 10 < 10 :=
    Nat.mod_lt _ (by norm_num)
  refine ⟨?_, ?_⟩
  · simp [format2]
  · simp [format2, List.takeWhile_cons, digitChar_bne_dot _ h1, digitChar_bne_dot _ h2]

/-! ### Claims -/

/-- Claim C4: writing an empty batch of samples is a no-op — the filesystem
(in particular the samples file) is left unchanged and no error occurs. -/
theorem write_data_empty_noop (fs : FS) (fl : Faults) (st : SimState) :
    write_data fs fl [] st = fs := rfl

/-- Claim C5: in every written sample row the floating-point fields
x, y, speed, acceleration and angle (cells 4–8) are rendered with exactly
two decimal digits, and input speed `5` renders as `"5.00"`. -/
theorem sampleRow_two_decimals :
    format2 5 = "5.00" ∧
    ∀ (ts stp : Int) (d : SensorData),
      ∀ s ∈ ((sampleRow ts stp d).drop 4).take 5, twoDecimals s := by
  refine ⟨by decide, ?_⟩
  intro ts stp d s hs
  have hrow : ((sampleRow ts stp d).drop 4).take 5 =
      [format2 (d.x.getD 0), format2 (d.y.getD 0), format2 (d.speed.getD 0),
       format2 (d.acceleration.getD 0), format2 (d.angle.getD 0)] := rfl
  rw [hrow] at hs
  simp only [List.mem_cons, List.not_mem_nil, or_false] at hs
  rcases hs with h | h | h | h | h <;> subst h <;> exact twoDecimals_format2 _

/-- Witness for C5 at a concrete record: the all-defaults record's speed
cell `"0.00"` is among cells 4–8 and has exactly two decimal digits. -/
theorem sampleRow_two_decimals_witness :
    "0.00" ∈ ((sampleRow 10 3 emptySensorData).drop 4).take 5 ∧
      twoDecimals "0.00" :=
  ⟨by decide,
   sampleRow_two_decimals.2 10 3 emptySensorData "0.00" (by decide)⟩

/-- Claim C9: when the configuration's simulation section lacks the
`csv_append_mode` key, the writer defaults to append mode enabled. -/
theorem append_mode_default (cfg : Config) (h : cfg.csv_append_mode = none) :
    (CSVWriter.ofConfig cfg).append_mode = true := by
  simp [CSVWriter.ofConfig, h]

/-- Witness for C9 at the empty configuration. -/
theorem append_mode_default_witness :
    (Config.mk none).csv_append_mode = none ∧
      (CSVWriter.ofConfig (Config.mk none)).append_mode = true :=
  ⟨rfl, append_mode_default ⟨none⟩ rfl⟩

/-- Claim C10: the two destinations are disjoint — `write_data` never
touches the events file (or the directory), and `write_hazard_event`
never touches the samples file (or the directory), for every input and
every fault assignment. -/
theorem destinations_disjoint (fs : FS) (fl : Faults) (recs : List SensorData)
    (st : SimState) (ev : HazardEvent) :
    (write_data fs fl recs st).hazardFile = fs.hazardFile ∧
    (write_data fs fl recs st).dirExists = fs.dirExists ∧
    (write_hazard_event fs fl ev).dataFile = fs.dataFile ∧
    (write_hazard_event fs fl ev).dirExists = fs.dirExists := by
  unfold write_data write_hazard_event
  refine ⟨?_, ?_, ?_, ?_⟩ <;> (repeat' split) <;> rfl

/-- `mkOutputDir` always leaves the directory existing. -/
theorem mkOutputDir_dirExists (fs : FS) : (mkOutputDir fs).dirExists = true := by
  unfold mkOutputDir
  split <;> simp_all

/-- Counterexample to C1 as stated: on a filesystem whose output directory
is absent, `initialize_files` does not create it — the call fails
(returns `false`) and the directory is still absent afterwards. -/
theorem initFiles_no_mkdir_counterexample :
    (initFiles (CSVWriter.ofConfig ⟨some false⟩) ⟨false, none, none⟩
        noFaults).2.2.dirExists = false ∧
    (initFiles (CSVWriter.ofConfig ⟨some false⟩) ⟨false, none, none⟩
        noFaults).2.1 = false := by
  decide

/-- Claim C1 (amended): the output-directory guarantee is established by the
constructor `__init__`, not by `initialize_files`: construction (when its
`os.makedirs` call does not fault) always yields a state whose output
directory exists, while `initialize_files` never changes whether the
directory exists. -/
theorem dir_ensured_by_constructor (cfg : Config) (fs : FS) (fl : Faults)
    (w : CSVWriter) (h : fs.dirExists = true ∨ fl.makedirsFails = false) :
    CSVWriter.construct cfg fs fl =
      Except.ok (CSVWriter.ofConfig cfg, mkOutputDir fs) ∧
    (mkOutputDir fs).dirExists = true ∧
    (initFiles w fs fl).2.2.dirExists = fs.dirExists := by
  refine ⟨?_, mkOutputDir_dirExists fs, ?_⟩
  · unfold CSVWriter.construct
    rcases h with h | h <;> simp [h]
  · unfold initFiles initHazardPart
    dsimp only
    split_ifs <;> rfl

/-- Witness for C1 (amended) on a directory-absent state with no faults. -/
theorem dir_ensured_by_constructor_witness :
    ((⟨false, none, none⟩ : FS).dirExists = true ∨
      noFaults.makedirsFails = false) ∧
    (CSVWriter.construct ⟨none⟩ ⟨false, none, none⟩ noFaults =
      Except.ok (CSVWriter.ofConfig ⟨none⟩, mkOutputDir ⟨false, none, none⟩) ∧
    (mkOutputDir ⟨false, none, none⟩).dirExists = true ∧
    (initFiles (CSVWriter.ofConfig ⟨none⟩) ⟨false, none, none⟩
        noFaults).2.2.dirExists = (⟨false, none, none⟩ : FS).dirExists) :=
  ⟨Or.inr rfl,
   dir_ensured_by_constructor ⟨none⟩ ⟨false, none, none⟩ noFaults
     (CSVWriter.ofConfig ⟨none⟩) (Or.inr rfl)⟩

/-- Claim C2: on a freshly constructed writer over an existing output
directory, `initialize_files` succeeds and writes the header row to a
destination exactly when it is needed — needed meaning not in append mode,
or in append mode with the destination absent — and when a header is
written the destination is truncated to exactly the header row, even if
it pre-existed. -/
theorem initFiles_header_exactly_when_needed (cfg : Config) (fs : FS)
    (hdir : fs.dirExists = true) :
    (initFiles (CSVWriter.ofConfig cfg) fs noFaults).2.1 = true ∧
    (initFiles (CSVWriter.ofConfig cfg) fs noFaults).2.2.dataFile =
      (if (CSVWriter.ofConfig cfg).append_mode = true ∧ fs.dataFile.isSome = true
       then fs.dataFile else some [dataHeader]) ∧
    (initFiles (CSVWriter.ofConfig cfg) fs noFaults).2.2.hazardFile =
      (if (CSVWriter.ofConfig cfg).append_mode = true ∧ fs.hazardFile.isSome = true
       then fs.hazardFile else some [hazardHeader]) := by
  cases hc : cfg.csv_append_mode.getD true <;>
    cases hdf : fs.dataFile <;> cases hhf : fs.hazardFile <;>
      simp [initFiles, initHazardPart, CSVWriter.ofConfig, noFaults,
        hc, hdir, hdf, hhf]

/-- Witness for C2: append mode over an existing empty directory — both
headers are needed and written. -/
theorem initFiles_header_exactly_when_needed_witness :
    (⟨true, none, none⟩ : FS).dirExists = true ∧
    ((initFiles (CSVWriter.ofConfig ⟨some true⟩) ⟨true, none, none⟩
        noFaults).2.1 = true ∧
    (initFiles (CSVWriter.ofConfig ⟨some true⟩) ⟨true, none, none⟩
        noFaults).2.2.dataFile =
      (if (CSVWriter.ofConfig ⟨some true⟩).append_mode = true ∧
          (⟨true, none, none⟩ : FS).dataFile.isSome = true
       then (⟨true, none, none⟩ : FS).dataFile else some [dataHeader]) ∧
    (initFiles (CSVWriter.ofConfig ⟨some true⟩) ⟨true, none, none⟩
        noFaults).2.2.hazardFile =
      (if (CSVWriter.ofConfig ⟨some true⟩).append_mode = true ∧
          (⟨true, none, none⟩ : FS).hazardFile.isSome = true
       then (⟨true, none, none⟩ : FS).hazardFile else some [hazardHeader])) :=
  ⟨rfl, initFiles_header_exactly_when_needed ⟨some true⟩ ⟨true, none, none⟩ rfl⟩

/-- Two successive `initialize_files` calls on the same writer object, as
in a double initialization, threading the writer state and the filesystem
through both calls. -/
def initFilesTwice (cfg : Config) (fs : FS) : CSVWriter × Bool × FS :=
  let r1 := initFiles (CSVWriter.ofConfig cfg) fs noFaults
  initFiles r1.1 r1.2.2 noFaults

/-- Claim C3: initializing twice in append mode does not duplicate header
rows — the second call leaves both destinations unchanged, and starting
from an absent destination the header row occurs exactly once in it after
both calls. -/
theorem initFiles_twice_append_no_dup (cfg : Config) (fs : FS)
    (happ : cfg.csv_append_mode.getD true = true) (hdir : fs.dirExists = true) :
    (initFilesTwice cfg fs).2.2.dataFile =
      (initFiles (CSVWriter.ofConfig cfg) fs noFaults).2.2.dataFile ∧
    (initFilesTwice cfg fs).2.2.hazardFile =
      (initFiles (CSVWriter.ofConfig cfg) fs noFaults).2.2.hazardFile ∧
    (fs.dataFile = none →
      ((initFilesTwice cfg fs).2.2.dataFile.getD []).count dataHeader = 1) ∧
    (fs.hazardFile = none →
      ((initFilesTwice cfg fs).2.2.hazardFile.getD []).count hazardHeader = 1) := by
  cases hdf : fs.dataFile <;> cases hhf : fs.hazardFile <;>
    simp [initFilesTwice, initFiles, initHazardPart, CSVWriter.ofConfig,
      noFaults, happ, hdir, hdf, hhf]

/-- Witness for C3: append mode, existing empty directory, both files
absent — after two initializations each file holds its header once. -/
theorem initFiles_twice_append_no_dup_witness :
    (Config.mk (some true)).csv_append_mode.getD true = true ∧
    (⟨true, none, none⟩ : FS).dirExists = true ∧
    ((initFilesTwice ⟨some true⟩ ⟨true, none, none⟩).2.2.dataFile.getD
      []).count dataHeader = 1 :=
  ⟨rfl, rfl,
   (initFiles_twice_append_no_dup ⟨some true⟩ ⟨true, none, none⟩
     rfl rfl).2.2.1 rfl⟩

/-- Claim C6: on a non-empty batch, `write_data` appends exactly one row
per record to the samples file, in sequence order, all rows sharing the
context's timestamp and step; each missing field defaults to the empty
string (id, type, lane), zero (x, y, speed, acceleration, angle — written
`"0.00"`) or false (hazard_active — written `"False"`). -/
theorem write_data_appends (fs : FS) (fl : Faults) (recs : List SensorData)
    (st : SimState) (hne : recs ≠ []) (hdir : fs.dirExists = true)
    (hfl : fl.openDataFails = false) :
    (write_data fs fl recs st).dataFile =
      some (fs.dataFile.getD [] ++
        recs.map (sampleRow (st.simulation_time.getD 0) (st.step.getD 0))) ∧
    (recs.map (sampleRow (st.simulation_time.getD 0) (st.step.getD 0))).length
      = recs.length ∧
    (∀ r ∈ recs.map (sampleRow (st.simulation_time.getD 0) (st.step.getD 0)),
      r.head? = some (intStr (st.simulation_time.getD 0)) ∧
      r.tail.head? = some (intStr (st.step.getD 0))) ∧
    (∀ ts stp : Int, sampleRow ts stp emptySensorData =
      [intStr ts, intStr stp, "", "", "0.00", "0.00", "0.00", "0.00", "0.00",
       "", "False"]) := by
  refine ⟨?_, List.length_map _ _, ?_, ?_⟩
  · cases recs with
    | nil => exact absurd rfl hne
    | cons a l => simp [write_data, hdir, hfl]
  · intro r hr
    simp only [List.mem_map] at hr
    obtain ⟨d, _, rfl⟩ := hr
    exact ⟨rfl, rfl⟩
  · intro ts stp
    have h0 : format2 (0 : ℚ) = "0.00" := by decide
    simp [sampleRow, emptySensorData, h0, pyBoolStr]

/-- Witness for C6: one all-defaults record at timestamp 10, step 3,
appended after an existing header row. -/
theorem write_data_appends_witness :
    ([emptySensorData] ≠ ([] : List SensorData)) ∧
    (⟨true, some [dataHeader], none⟩ : FS).dirExists = true ∧
    noFaults.openDataFails = false ∧
    (write_data ⟨true, some [dataHeader], none⟩ noFaults [emptySensorData]
        ⟨some 10, some 3⟩).dataFile =
      some ((⟨true, some [dataHeader], none⟩ : FS).dataFile.getD [] ++
        [emptySensorData].map (sampleRow
          ((⟨some 10, some 3⟩ : SimState).simulation_time.getD 0)
          ((⟨some 10, some 3⟩ : SimState).step.getD 0))) :=
  ⟨by decide, rfl, rfl,
   (write_data_appends ⟨true, some [dataHeader], none⟩ noFaults
     [emptySensorData] ⟨some 10, some 3⟩ (by decide) rfl rfl).1⟩

/-- Claim C7: `write_hazard_event` appends exactly one row to the events
file, holding the event's timestamp, its name defaulting to `"unknown"`
when absent, and Python's textual rendering of its metadata dict; the
event with name `"pothole"`, timestamp `12` and empty metadata yields
the cells `12`, `pothole`, `\x7b\x7d`, serialized as the CSV line
`12,pothole,\x7b\x7d`. -/
theorem write_hazard_event_appends (fs : FS) (fl : Faults) (ev : HazardEvent)
    (hdir : fs.dirExists = true) (hfl : fl.openHazardFails = false) :
    (write_hazard_event fs fl ev).hazardFile =
      some (fs.hazardFile.getD [] ++
        [[intStr (ev.timestamp.getD 0), ev.hazard_name.getD "unknown",
          pyStrDict (ev.metadata.getD [])]]) ∧
    hazardRow ⟨some 12, some "pothole", some []⟩ =
      ["12", "pothole", "\x7b\x7d"] ∧
    serializeRow (hazardRow ⟨some 12, some "pothole", some []⟩) =
      "12,pothole,\x7b\x7d" := by
  refine ⟨?_, by decide, by decide⟩
  simp [write_hazard_event, hazardRow, hdir, hfl]

/-- Witness for C7: the pothole event appended after an existing header. -/
theorem write_hazard_event_appends_witness :
    (⟨true, none, some [hazardHeader]⟩ : FS).dirExists = true ∧
    noFaults.openHazardFails = false ∧
    (write_hazard_event ⟨true, none, some [hazardHeader]⟩ noFaults
        ⟨some 12, some "pothole", some []⟩).hazardFile =
      some ((⟨true, none, some [hazardHeader]⟩ : FS).hazardFile.getD [] ++
        [[intStr ((some (12 : Int)).getD 0),
          (some "pothole").getD "unknown", pyStrDict ((some []).getD [])]]) :=
  ⟨rfl, rfl,
   (write_hazard_event_appends ⟨true, none, some [hazardHeader]⟩ noFaults
     ⟨some 12, some "pothole", some []⟩ rfl rfl).1⟩

/-- Counterexample to C8 as stated: an I/O failure of the logger's
directory creation is not caught — `__init__` has no `try`/`except`, so
the exception propagates to the constructor's caller. -/
theorem error_propagation_counterexample :
    CSVWriter.construct ⟨some true⟩ ⟨false, none, none⟩ ⟨true, false, false⟩ =
      Except.error "OSError in os.makedirs" := rfl

/-- Claim C8 (amended): I/O failures inside `initialize_files` are caught
and converted to the return value `false` with the filesystem untouched,
and failures inside the two write operations are caught and converted to
silent no-ops; but directory creation happens in the constructor outside
any `try`/`except`, so a `makedirs` failure propagates to the
constructor's caller. -/
theorem io_failures_swallowed_except_constructor (cfg : Config)
    (w : CSVWriter) (fs : FS) (fl : Faults) (recs : List SensorData)
    (st : SimState) (ev : HazardEvent) (hod : fl.openDataFails = true)
    (hoh : fl.openHazardFails = true) (hmk : fl.makedirsFails = true)
    (hap : w.append_mode = false) (hdir : fs.dirExists = false) :
    write_data fs fl recs st = fs ∧
    write_hazard_event fs fl ev = fs ∧
    (initFiles w fs fl).2.1 = false ∧
    (initFiles w fs fl).2.2 = fs ∧
    CSVWriter.construct cfg fs fl = Except.error "OSError in os.makedirs" := by
  refine ⟨?_, ?_, ?_, ?_, ?_⟩
  · unfold write_data
    split
    · rfl
    · simp [hod]
  · simp [write_hazard_event, hoh]
  · simp [initFiles, initHazardPart, hap, hod]
  · simp [initFiles, initHazardPart, hap, hod]
  · simp [CSVWriter.construct, hdir, hmk]

/-- Witness for C8 (amended): every fault armed, a non-append writer, no
directory — both writes are no-ops, initialization reports failure, the
constructor raises. -/
theorem io_failures_swallowed_except_constructor_witness :
    (⟨true, true, true⟩ : Faults).openDataFails = true ∧
    (⟨false, true, true⟩ : CSVWriter).append_mode = false ∧
    (⟨false, none, none⟩ : FS).dirExists = false ∧
    (write_data ⟨false, none, none⟩ ⟨true, true, true⟩ [emptySensorData]
        ⟨none, none⟩ = (⟨false, none, none⟩ : FS) ∧
     write_hazard_event ⟨false, none, none⟩ ⟨true, true, true⟩
        ⟨none, none, none⟩ = (⟨false, none, none⟩ : FS) ∧
     (initFiles ⟨false, true, true⟩ ⟨false, none, none⟩
        ⟨true, true, true⟩).2.1 = false ∧
     (initFiles ⟨false, true, true⟩ ⟨false, none, none⟩
        ⟨true, true, true⟩).2.2 = (⟨false, none, none⟩ : FS) ∧
     CSVWriter.construct ⟨none⟩ ⟨false, none, none⟩ ⟨true, true, true⟩ =
       Except.error "OSError in os.makedirs") :=
  ⟨rfl, rfl, rfl,
   io_failures_swallowed_except_constructor ⟨none⟩ ⟨false, true, true⟩
     ⟨false, none, none⟩ ⟨true, true, true⟩ [emptySensorData] ⟨none, none⟩
     ⟨none, none, none⟩ rfl rfl rfl rfl rfl⟩
